import Mathlib

/-!
Verification of the EDM credential-lifecycle core of the fit-doctor repository.

The definitions below are a shallow embedding of:
- `src/nextjs-app/app/api/edm/refresh-all/route.ts` (checkAuth, refreshRecord, POST sweep),
- `src/unnamed/part_000` and `src/nextjs-app/app/api/edm/order-visit/route.ts`
  (refreshAccessTokenIfNeeded — the two copies are line-for-line identical except for the
  throw-message text on upstream HTTP failure; we embed the order-visit wording
  "EDM refresh failed: ", part_000 uses "EDM token refresh failed: "),
- `src/nextjs-app/app/api/edm/order-visit/route.ts` (parsePesel, removeEmpty,
  buildPatientPayload, POST).

Timestamps are modelled as integers in milliseconds since the epoch (JavaScript
`Date.now()`); database rows are explicit records, the Prisma store is a list of rows,
and each `prisma.edmAuth.update` call site is embedded as the record transformation it
performs, including the Prisma rule that a field given the value `undefined` is left
unchanged by the update.
-/

namespace FitDoctor

/-- Modelled from the spec: the repository imports `encryptToken`, `decryptToken` and
`hashToken` from `@/lib/edm-crypto`, which is not under `src/`. Per spec section 4.1
(TokenCipher), `encrypt` uses a fresh nonce per call (non-deterministic output),
`decrypt` is its inverse and fails with a CryptoError on tampered or malformed input
(authenticated decryption). Ciphertexts are modelled symbolically: a well-formed
ciphertext carries its nonce and plaintext, and `corrupt` stands for any blob that
fails authenticated decryption. -/
inductive Ciphertext where
  | enc (nonce : Nat) (plain : String)
  | corrupt (tag : Nat)
deriving Repr, DecidableEq

/-- Modelled from the spec: `encrypt(plaintext) -> ciphertext` with a fresh nonce/IV
each call; the caller supplies the nonce explicitly here. -/
def encryptToken (nonce : Nat) (plain : String) : Ciphertext :=
  .enc nonce plain

/-- Modelled from the spec: `decrypt(ciphertext) -> plaintext`, failing with a
CryptoError on input that does not pass authenticated decryption. -/
def decryptToken : Ciphertext → Except String String
  | .enc _ p => .ok p
  | .corrupt t => .error ("CryptoError: malformed or tampered ciphertext " ++ toString t)

/-- Modelled from the spec: `hash(plaintext) -> digest`, one-way and deterministic,
used only for equality checks and audit. -/
def hashToken (plain : String) : String :=
  "digest:" ++ plain

/-- One row of the `edmAuth` Prisma table (spec section 3, CredentialEntry). -/
structure EdmAuth where
  id : Nat
  encryptedAccessToken : Option Ciphertext
  accessTokenExpiresAt : Option Int
  encryptedRefreshToken : Ciphertext
  refreshTokenHash : String
  lastRefreshedAt : Option Int
  nextRefreshAt : Option Int
  refreshFailureCount : Nat
  revoked : Bool
deriving Repr, DecidableEq

/-- The JSON body of the upstream token endpoint's reply, together with `ok`
(`response.ok`, i.e. 2xx status) and the raw body text (`response.text()`, read on
the failure path). Absent JSON fields are `none`. -/
structure TokenResponse where
  ok : Bool
  text : String
  access_token : Option String
  refresh_token : Option String
  expires_in : Option Int
deriving Repr, DecidableEq

/-- JavaScript truthiness of a possibly-absent string: present and non-empty. -/
def truthyStr : Option String → Bool
  | some s => !(s == "")
  | none => false

/-- JavaScript truthiness of a possibly-absent number: present and non-zero. -/
def truthyInt : Option Int → Bool
  | some n => !(n == 0)
  | none => false

def oneHourMs : Int := 60 * 60 * 1000

def eightHoursMs : Int := 8 * 60 * 60 * 1000

/-- The failure-path `prisma.edmAuth.update` shared verbatim by all three call sites:
increment `refreshFailureCount`, set `nextRefreshAt = new Date(Date.now() + 60*60*1000)`. -/
def applyFailure (now : Int) (rec : EdmAuth) : EdmAuth :=
  { rec with
      refreshFailureCount := rec.refreshFailureCount + 1,
      nextRefreshAt := some (now + oneHourMs) }

/-- The guard opening `refreshAccessTokenIfNeeded`:
`rec.encryptedAccessToken && rec.accessTokenExpiresAt && new Date(rec.accessTokenExpiresAt) > new Date(Date.now() + 60 * 1000)`.
(A Prisma `Date` value is always truthy when the column is non-null, so the JS
truthiness of the two columns is presence.) -/
def fastPathCond (now : Int) (rec : EdmAuth) : Bool :=
  rec.encryptedAccessToken.isSome &&
    (match rec.accessTokenExpiresAt with
     | some t => decide (t > now + 60 * 1000)
     | none => false)

instance : DecidableEq (Except String String) := fun a b =>
  match a, b with
  | .ok x, .ok y => if h : x = y then isTrue (by rw [h]) else isFalse (by simp [h])
  | .error x, .error y => if h : x = y then isTrue (by rw [h]) else isFalse (by simp [h])
  | .ok _, .error _ => isFalse (by simp)
  | .error _, .ok _ => isFalse (by simp)

/-- Result of one call to `refreshAccessTokenIfNeeded`: the row as left in the store,
the returned access token or the thrown error message, and how many network calls to
the token endpoint and how many store writes the call performed. -/
structure RefreshCall where
  newRec : EdmAuth
  result : Except String String
  networkCalls : Nat
  storeWrites : Nat
deriving Repr, DecidableEq

/-- Body of `refreshAccessTokenIfNeeded` after the fast-path guard
(order-visit route lines 136-189; identical in part_000 lines 16-69 up to the
throw-message wording): decrypt the stored refresh token (a decryption error is
thrown to the caller before any network call), POST the refresh grant, on non-2xx
apply the failure update and throw, on 2xx require `access_token` (throwing without
any store update when it is missing), then apply the success update and return the
plaintext access token. `n1` and `n2` are the fresh nonces consumed by the two
possible `encryptToken` calls. -/
def doRefreshGrant (now : Int) (n1 n2 : Nat) (rec : EdmAuth) (resp : TokenResponse) :
    RefreshCall :=
  match decryptToken rec.encryptedRefreshToken with
  | .error e => { newRec := rec, result := .error e, networkCalls := 0, storeWrites := 0 }
  | .ok _rawRefresh =>
    if !resp.ok then
      { newRec := applyFailure now rec,
        result := .error ("EDM refresh failed: " ++ resp.text),
        networkCalls := 1, storeWrites := 1 }
    else if !(truthyStr resp.access_token) then
      { newRec := rec, result := .error "No access_token in refresh response",
        networkCalls := 1, storeWrites := 0 }
    else
      let a := resp.access_token.getD ""
      let encAccess := encryptToken n1 a
      let expiresAt : Option Int :=
        if truthyInt resp.expires_in then some (now + resp.expires_in.getD 0 * 1000)
        else none
      let encRefresh :=
        if truthyStr resp.refresh_token then encryptToken n2 (resp.refresh_token.getD "")
        else rec.encryptedRefreshToken
      let refreshHash :=
        if truthyStr resp.refresh_token then hashToken (resp.refresh_token.getD "")
        else rec.refreshTokenHash
      { newRec :=
          { rec with
              encryptedAccessToken := some encAccess,
              accessTokenExpiresAt :=
                match expiresAt with
                | some t => some t
                | none => rec.accessTokenExpiresAt,
              encryptedRefreshToken := encRefresh,
              refreshTokenHash := refreshHash,
              lastRefreshedAt := some now,
              nextRefreshAt := some (now + eightHoursMs),
              refreshFailureCount := 0 },
        result := .ok a, networkCalls := 1, storeWrites := 1 }

/-- `refreshAccessTokenIfNeeded(rec)`: if the fast-path guard holds, decrypt and
return the stored access token with no network call and no store write; otherwise
run the refresh grant. -/
def refreshAccessTokenIfNeeded (now : Int) (n1 n2 : Nat) (rec : EdmAuth)
    (resp : TokenResponse) : RefreshCall :=
  if fastPathCond now rec then
    match rec.encryptedAccessToken with
    | some ct => { newRec := rec, result := decryptToken ct, networkCalls := 0, storeWrites := 0 }
    | none => { newRec := rec, result := .error "unreachable: guard requires presence",
                networkCalls := 0, storeWrites := 0 }
  else
    doRefreshGrant now n1 n2 rec resp

/-- One per-entry outcome object pushed by the sweep: `{ id, ok: true, nextRefreshAt }`
or `{ id, ok: false, details }`. -/
inductive SweepOutcome where
  | okOut (id : Nat) (nextRefreshAt : Int)
  | failOut (id : Nat) (details : String)
deriving Repr, DecidableEq

/-- `refreshRecord(r)` from the refresh-all route: the whole body runs in a
try/catch, so a decryption error lands in the catch block, which applies the
failure update and reports `{ ok: false }`. A 2xx reply takes the success path even
when `access_token` is absent: `encAccess` is then `undefined` and Prisma leaves the
`encryptedAccessToken` column unchanged, while the remaining success fields are
written and `{ ok: true }` is returned. -/
def refreshRecord (now : Int) (n1 n2 : Nat) (r : EdmAuth) (resp : TokenResponse) :
    EdmAuth × SweepOutcome :=
  match decryptToken r.encryptedRefreshToken with
  | .error e => (applyFailure now r, .failOut r.id e)
  | .ok _rawRefresh =>
    if !resp.ok then
      (applyFailure now r, .failOut r.id resp.text)
    else
      let encAccess : Option Ciphertext :=
        if truthyStr resp.access_token then some (encryptToken n1 (resp.access_token.getD ""))
        else none
      let encRefresh :=
        if truthyStr resp.refresh_token then encryptToken n2 (resp.refresh_token.getD "")
        else r.encryptedRefreshToken
      let refreshHash :=
        if truthyStr resp.refresh_token then hashToken (resp.refresh_token.getD "")
        else r.refreshTokenHash
      let expiresAt : Option Int :=
        if truthyInt resp.expires_in then some (now + resp.expires_in.getD 0 * 1000)
        else none
      let nextRefresh := now + eightHoursMs
      ({ r with
          encryptedAccessToken :=
            match encAccess with
            | some c => some c
            | none => r.encryptedAccessToken,
          accessTokenExpiresAt :=
            match expiresAt with
            | some t => some t
            | none => r.accessTokenExpiresAt,
          encryptedRefreshToken := encRefresh,
          refreshTokenHash := refreshHash,
          lastRefreshedAt := some now,
          nextRefreshAt := some nextRefresh,
          refreshFailureCount := 0 },
       .okOut r.id nextRefresh)

/-- `batchSize` constant of the sweep (refresh-all route line 101). -/
def batchSize : Nat := 100

/-- Writing one updated row back: `prisma.edmAuth.update({ where: { id } })`. -/
def storeUpdate (store : List EdmAuth) (e : EdmAuth) : List EdmAuth :=
  store.map (fun x => if x.id == e.id then e else x)

/-- The inner `for (const r of toRefresh)` loop: refresh each fetched row
sequentially, writing each update back and appending its outcome. `respOf` gives
the token endpoint's reply for the entry with a given id. -/
def processPage (now : Int) (respOf : Nat → TokenResponse) :
    List EdmAuth → List EdmAuth → List SweepOutcome → List EdmAuth × List SweepOutcome
  | [], store, acc => (store, acc)
  | r :: rest, store, acc =>
    let step := refreshRecord now 0 0 r (respOf r.id)
    processPage now respOf rest (storeUpdate store step.1) (acc ++ [step.2])

/-- The `while (true)` sweep loop of the refresh-all POST handler: fetch
`findMany({ where: { revoked: false }, take: batchSize })` — which, having no cursor
or skip, is the first `batchSize` non-revoked rows of the store — break on an empty
page, process the page, break when the page was shorter than `batchSize`, else loop.
`fuel` bounds the number of iterations we unroll; `none` means the loop was still
running when the fuel ran out. -/
def sweepLoop (now : Int) (respOf : Nat → TokenResponse) :
    Nat → List EdmAuth → List SweepOutcome → Option (List EdmAuth × List SweepOutcome)
  | 0, _, _ => none
  | fuel + 1, store, acc =>
    let page := (store.filter (fun e => !e.revoked)).take batchSize
    if page.isEmpty then some (store, acc)
    else
      let step := processPage now respOf page store acc
      if page.length < batchSize then some step
      else sweepLoop now respOf fuel step.1 step.2

/-- Environment read by `checkAuth`: `process.env.ADMIN_REFRESH_KEY ?? ""` and
whether `process.env.VERCEL === "1"`. -/
structure AuthEnv where
  adminRefreshKey : String
  vercel : Bool
deriving Repr, DecidableEq

/-- The request headers `checkAuth` reads; `none` means the header is absent
(`headers.get` returns `null`). -/
structure ReqHeaders where
  authorization : Option String
  xAdminKey : Option String
  xVercelCron : Option String
deriving Repr, DecidableEq

/-- `checkAuth(req)` of the refresh-all route: accept `Authorization: Bearer <key>`,
or `x-admin-key: <key>`, or — when running on Vercel (`VERCEL === "1"`) — any request
carrying an `x-vercel-cron` header. -/
def checkAuth (env : AuthEnv) (h : ReqHeaders) : Bool :=
  if h.authorization.getD "" == "Bearer " ++ env.adminRefreshKey then true
  else if h.xAdminKey == some env.adminRefreshKey then true
  else if env.vercel && h.xVercelCron.isSome then true
  else false

/-- Result of `POST /api/edm/refresh-all`: a 401 `{ error: "unauthorized" }` with no
refresh work, or a 200 `{ processed, results }`, or `fuelExhausted` when the embedded
loop was still running after `fuel` iterations. -/
inductive SweepPostResult where
  | unauthorized
  | completed (processed : Nat) (results : List SweepOutcome)
  | fuelExhausted
deriving Repr, DecidableEq

/-- The refresh-all POST handler: auth gate, then the batch loop, then
`{ processed: results.length, results }`. -/
def refreshAllPost (env : AuthEnv) (h : ReqHeaders) (now : Int)
    (respOf : Nat → TokenResponse) (fuel : Nat) (store : List EdmAuth) : SweepPostResult :=
  if !(checkAuth env h) then .unauthorized
  else
    match sweepLoop now respOf fuel store [] with
    | some (_, results) => .completed results.length results
    | none => .fuelExhausted

mutual

/-- A JSON-like JavaScript value as manipulated by the order-visit route. The
payload builder assigns strings, numbers, booleans, `null` and plain objects;
`undefined` never appears as a stored property value in `buildPatientPayload`
(absent keys model it), so it is not a constructor here. -/
inductive JVal where
  | jstr (s : String)
  | jnum (n : Int)
  | jbool (b : Bool)
  | jnull
  | jobj (fields : JFields)
deriving DecidableEq

/-- The ordered own-properties of a JavaScript object. -/
inductive JFields where
  | nil
  | cons (key : String) (val : JVal) (rest : JFields)
deriving DecidableEq

end

def JFields.ofList : List (String × JVal) → JFields
  | [] => .nil
  | (k, v) :: rest => .cons k v (ofList rest)

def JFields.append : JFields → JFields → JFields
  | .nil, ys => ys
  | .cons k v rest, ys => .cons k v (rest.append ys)

def JFields.hasKey : JFields → String → Bool
  | .nil, _ => false
  | .cons k _ rest, key => k == key || rest.hasKey key

def JFields.lookup : JFields → String → Option JVal
  | .nil, _ => none
  | .cons k v rest, key => if k == key then some v else rest.lookup key

/-- Shorthand for building an object literal. -/
def jo (l : List (String × JVal)) : JVal :=
  .jobj (JFields.ofList l)

/-- The deletion test of `removeEmpty`:
`val === "" || val === null || val === undefined`. -/
def isEmptyPrim : JVal → Bool
  | .jstr s => s == ""
  | .jnull => true
  | _ => false

mutual

/-- `removeEmpty(obj)` of the order-visit route: on an object, prune its fields;
any other value is returned unchanged. -/
def removeEmpty : JVal → JVal
  | .jobj fs => .jobj (pruneFields fs)
  | v => v

/-- The `for (const key of Object.keys(obj))` body of `removeEmpty`: delete keys
whose value is `""`, `null` or `undefined`; recurse into object values and delete
them when they pruned to an empty object. -/
def pruneFields : JFields → JFields
  | .nil => .nil
  | .cons k v rest =>
    if isEmptyPrim v then pruneFields rest
    else
      match v with
      | .jobj inner =>
        match pruneFields inner with
        | .nil => pruneFields rest
        | .cons k2 v2 r2 => .cons k (.jobj (.cons k2 v2 r2)) (pruneFields rest)
      | w => .cons k w (pruneFields rest)

end

def isNilF : JFields → Bool
  | .nil => true
  | .cons _ _ _ => false

mutual

/-- A value is clean when it is a non-empty string, a number or a boolean, or a
non-empty object all of whose field values are clean; `null` (and the empty
string) are not clean. -/
def cleanVal : JVal → Bool
  | .jstr s => !(s == "")
  | .jnum _ => true
  | .jbool _ => true
  | .jnull => false
  | .jobj fs => !(isNilF fs) && cleanFields fs

/-- Every field value of the list is clean. -/
def cleanFields : JFields → Bool
  | .nil => true
  | .cons _ v rest => cleanVal v && cleanFields rest

end

/-- `String(n).padStart(2, "0")` for the month/day numbers of `parsePesel`. -/
def pad2 (n : Nat) : String :=
  if n < 10 then "0" ++ toString n else toString n

/-- Return value of `parsePesel`. -/
structure PeselParsed where
  dateOfBirth : Option String
  sex : Option String
deriving Repr, DecidableEq

/-- `parsePesel(pesel)` of the order-visit route: require 11 digits, decode the
century from the month offset, and read the sex from the parity of digit 9. -/
def parsePesel (pesel : String) : PeselParsed :=
  if !(pesel.length == 11 && pesel.toList.all Char.isDigit) then ⟨none, none⟩
  else
    let year := ((pesel.take 2).toNat?).getD 0
    let month0 := (((pesel.drop 2).take 2).toNat?).getD 0
    let day := (((pesel.drop 4).take 2).toNat?).getD 0
    let decoded : Option (Nat × Nat) :=
      if 1 ≤ month0 && month0 ≤ 12 then some (1900 + year, month0)
      else if 21 ≤ month0 && month0 ≤ 32 then some (2000 + year, month0 - 20)
      else if 41 ≤ month0 && month0 ≤ 52 then some (2100 + year, month0 - 40)
      else if 61 ≤ month0 && month0 ≤ 72 then some (2200 + year, month0 - 60)
      else if 81 ≤ month0 && month0 ≤ 92 then some (1800 + year, month0 - 80)
      else none
    match decoded with
    | none => ⟨none, none⟩
    | some (fullYear, month) =>
      let dob := toString fullYear ++ "-" ++ pad2 month ++ "-" ++ pad2 day
      let sexDigit := (((pesel.drop 9).take 1).toNat?).getD 0
      let sex := if sexDigit % 2 == 1 then "Mężczyzna" else "Kobieta"
      ⟨some dob, some sex⟩

/-- The request-body fields consumed by `buildPatientPayload`; `none` models an
absent JSON field. -/
structure PatientInput where
  name : String
  surname : String
  email : Option String
  pesel : Option String
  date_of_birth : Option String
  telephone : Option String
deriving Repr, DecidableEq

/-- The `residence_address` / `registration_address` literal of
`buildPatientPayload` (identical for both keys). -/
def addressFields : JFields := .ofList
  [("country", .jstr "PL"), ("street", .jstr ""), ("street_number", .jstr ""),
   ("flat_number", .jstr ""), ("postal_code", .jstr ""), ("city", .jstr ""),
   ("province", .jstr "")]

/-- The payload object of `buildPatientPayload` as it stands just before the final
`removeEmpty(payload)` call: the object literal, then the conditional property
assignments for `email`, `pesel`, the PESEL-derived or explicit `date_of_birth`,
`sex`, and the `"Nieznana"` sex default. JavaScript appends a newly assigned
property at the end of the object; `date_of_birth` is assigned at most once because
the PESEL-derived assignment is guarded by `!date_of_birth`. -/
def buildPatientPayloadRaw (i : PatientInput) : JFields :=
  let telephoneVal : JVal :=
    match i.telephone with
    | some t => .jstr t
    | none => .jnull
  let base : JFields := .ofList
    [("name", .jstr i.name), ("surname", .jstr i.surname),
     ("telephone", telephoneVal), ("second_telephone", .jnull),
     ("country", .jstr "PL"), ("nfz", .jnull), ("rights", .jnull),
     ("residence_address", .jobj addressFields),
     ("registration_address", .jobj addressFields),
     ("blood_type", .jstr "N"), ("active", .jbool true)]
  let p1 :=
    if truthyStr i.email then base.append (.ofList [("email", .jstr (i.email.getD ""))])
    else base
  let parsed := if truthyStr i.pesel then parsePesel (i.pesel.getD "") else ⟨none, none⟩
  let p2 :=
    if truthyStr i.pesel then p1.append (.ofList [("pesel", .jstr (i.pesel.getD ""))])
    else p1
  let p3 :=
    if truthyStr i.pesel then
      match parsed.dateOfBirth with
      | some dob =>
        if !(truthyStr i.date_of_birth) then
          p2.append (.ofList [("date_of_birth", .jstr dob)])
        else p2
      | none => p2
    else p2
  let p4 :=
    if truthyStr i.pesel then
      match parsed.sex with
      | some sx => p3.append (.ofList [("sex", .jstr sx)])
      | none => p3
    else p3
  let p5 :=
    if truthyStr i.date_of_birth then
      p4.append (.ofList [("date_of_birth", .jstr (i.date_of_birth.getD ""))])
    else p4
  if !(p5.hasKey "sex") then p5.append (.ofList [("sex", .jstr "Nieznana")]) else p5

/-- `buildPatientPayload(input)`: build the raw payload and prune it with
`removeEmpty` before returning it. -/
def buildPatientPayload (i : PatientInput) : JVal :=
  removeEmpty (.jobj (buildPatientPayloadRaw i))

/-- `String(v)` as applied to a parsed JSON value. -/
def jsToString : JVal → String
  | .jstr s => s
  | .jnum n => toString n
  | .jbool true => "true"
  | .jbool false => "false"
  | .jnull => "null"
  | .jobj _ => "[object Object]"

def jsToStringOpt : Option JVal → String
  | none => "undefined"
  | some v => jsToString v

/-- An upstream EDM business-API reply (`/patients/` or `/visits/`): `ok`,
`status`, and the body as already parsed by the route's
`try { JSON.parse(text) } catch { { raw: text } }` step. -/
structure HttpResp where
  ok : Bool
  status : Int
  parsed : JVal
deriving DecidableEq

/-- The `edmDoctorDepartment` configuration row read by the order-visit route. -/
structure EdmCfg where
  doctorExternalId : Option String
  departmentExternalId : Option String
deriving Repr, DecidableEq

/-- The JSON body of an order-visit request, as destructured by the handler. -/
structure OrderVisitReq where
  userId : Option String
  name : Option String
  surname : Option String
  email : Option String
  pesel : Option String
  date_of_birth : Option String
  telephone : Option String
  visitDate : Option String
deriving Repr, DecidableEq

/-- The collaborators the order-visit handler consults: the user row
(`none` = not found; `some ext` = found, with its `externalPatientId ?? null`),
the active `edmAuth` row, the token endpoint's reply, the `/patients/` reply
(consumed only when patient creation runs), the doctor/department config row, and
the `/visits/` reply (consumed only when the visit call is reached). -/
structure OrderVisitEnv where
  user : Option (Option String)
  authRec : Option EdmAuth
  tokenResp : TokenResponse
  createPatientResp : HttpResp
  edmCfg : Option EdmCfg
  visitResp : HttpResp
deriving DecidableEq

/-- An HTTP JSON response produced with `NextResponse.json(body, { status })`. -/
inductive ApiResp where
  | json (status : Int) (body : JVal)
deriving DecidableEq

/-- `POST /api/edm/order-visit`: validate the body, look up the user and the
credential row, obtain an access token through `refreshAccessTokenIfNeeded`
(mapping a thrown error to a 502 `failed_to_get_access_token` response whose
`details` is the error message), create the EDM patient when the user has no
`externalPatientId` yet (returning the upstream validation info with HTTP 200 and
`ok: false` on a non-2xx reply; the successful branch also writes
`externalPatientId` back to the user row, a side effect with no bearing on the
response), then check the doctor/department config and create the visit, again
mapping a non-2xx reply to a 200 `ok: false` body. -/
def orderVisitPost (now : Int) (n1 n2 : Nat) (req : OrderVisitReq)
    (env : OrderVisitEnv) : ApiResp :=
  if !(truthyStr req.userId) then
    .json 400 (jo [("error", .jstr "userId is required")])
  else if !(truthyStr req.name) || !(truthyStr req.surname) then
    .json 400 (jo [("error", .jstr "name and surname required")])
  else
    match env.user with
    | none => .json 404 (jo [("error", .jstr "user_not_found")])
    | some extPatId =>
      match env.authRec with
      | none => .json 404 (jo [("error", .jstr "No EDM credentials configured")])
      | some rec =>
        match (refreshAccessTokenIfNeeded now n1 n2 rec env.tokenResp).result with
        | .error e =>
          .json 502 (jo [("error", .jstr "failed_to_get_access_token"),
                         ("details", .jstr e)])
        | .ok _accessToken =>
          let afterPatient : Except ApiResp String :=
            if !(truthyStr extPatId) then
              if !env.createPatientResp.ok then
                .error (.json 200 (jo
                  [("ok", .jbool false), ("step", .jstr "create_patient"),
                   ("status", .jnum env.createPatientResp.status),
                   ("body", env.createPatientResp.parsed)]))
              else
                .ok (jsToStringOpt
                  (match env.createPatientResp.parsed with
                   | .jobj fs => fs.lookup "id"
                   | _ => none))
            else .ok (extPatId.getD "")
          match afterPatient with
          | .error earlyResp => earlyResp
          | .ok patientId =>
            match env.edmCfg with
            | none => .json 400 (jo [("error", .jstr "no_edm_doctor_department_configured")])
            | some cfg =>
              if !(truthyStr cfg.doctorExternalId) || !(truthyStr cfg.departmentExternalId) then
                .json 400 (jo [("error", .jstr "doctor or office not configured")])
              else
                if !env.visitResp.ok then
                  .json 200 (jo
                    [("ok", .jbool false), ("step", .jstr "create_visit"),
                     ("status", .jnum env.visitResp.status),
                     ("body", env.visitResp.parsed)])
                else
                  .json 200 (jo
                    [("ok", .jbool true), ("patientId", .jstr patientId),
                     ("visit", env.visitResp.parsed)])

/-! ### Helper lemmas about the sweep -/

/-- No branch of `refreshRecord` writes the `revoked` column. -/
theorem refreshRecord_revoked (now : Int) (n1 n2 : Nat) (r : EdmAuth) (resp : TokenResponse) :
    ((refreshRecord now n1 n2 r resp).1).revoked = r.revoked := by
  unfold refreshRecord
  cases hd : decryptToken r.encryptedRefreshToken with
  | error e => simp [applyFailure]
  | ok rt =>
    by_cases hok : resp.ok <;> simp [hok, applyFailure]

/-- No branch of `refreshRecord` writes the `id` column. -/
theorem refreshRecord_id (now : Int) (n1 n2 : Nat) (r : EdmAuth) (resp : TokenResponse) :
    ((refreshRecord now n1 n2 r resp).1).id = r.id := by
  unfold refreshRecord
  cases hd : decryptToken r.encryptedRefreshToken with
  | error e => simp [applyFailure]
  | ok rt =>
    by_cases hok : resp.ok <;> simp [hok, applyFailure]

/-- Every row of the store is non-revoked. -/
def AllActive (s : List EdmAuth) : Prop :=
  ∀ x ∈ s, x.revoked = false

theorem storeUpdate_length (s : List EdmAuth) (e : EdmAuth) :
    (storeUpdate s e).length = s.length := by
  simp [storeUpdate]

theorem storeUpdate_allActive {s : List EdmAuth} {e : EdmAuth}
    (hs : AllActive s) (he : e.revoked = false) : AllActive (storeUpdate s e) := by
  intro x hx
  simp only [storeUpdate, List.mem_map] at hx
  obtain ⟨y, hy, hxy⟩ := hx
  by_cases hid : (y.id == e.id) = true
  · rw [← hxy, if_pos hid]; exact he
  · rw [← hxy, if_neg hid]; exact hs y hy

theorem processPage_length (now : Int) (respOf : Nat → TokenResponse)
    (page : List EdmAuth) :
    ∀ store acc, ((processPage now respOf page store acc).1).length = store.length := by
  induction page with
  | nil => intro store acc; rfl
  | cons r rest ih =>
    intro store acc
    unfold processPage
    rw [ih, storeUpdate_length]

theorem processPage_allActive (now : Int) (respOf : Nat → TokenResponse)
    (page : List EdmAuth) :
    ∀ store acc, AllActive store → (∀ r ∈ page, r.revoked = false) →
      AllActive ((processPage now respOf page store acc).1) := by
  induction page with
  | nil => intro store acc hs _; exact hs
  | cons r rest ih =>
    intro store acc hs hp
    unfold processPage
    apply ih
    · apply storeUpdate_allActive hs
      rw [refreshRecord_revoked]
      exact hp r (List.mem_cons_self r rest)
    · intro x hx; exact hp x (List.mem_cons_of_mem r hx)

/-- When every row is non-revoked and there are at least `batchSize` of them, each
iteration of the sweep loop refetches a full first page (the `findMany` has no
cursor and refreshing a row does not remove it from the `revoked: false`
selection), so the loop never reaches either break and exhausts any fuel. -/
theorem sweepLoop_none (now : Int) (respOf : Nat → TokenResponse) :
    ∀ fuel store acc, AllActive store → batchSize ≤ store.length →
      sweepLoop now respOf fuel store acc = none := by
  intro fuel
  induction fuel with
  | zero => intro store acc _ _; rfl
  | succ n ih =>
    intro store acc hA hlen
    have hfilter : store.filter (fun e => !e.revoked) = store := by
      apply List.filter_eq_self.mpr
      intro a ha
      simp [hA a ha]
    have hpagelen : ((store.filter (fun e => !e.revoked)).take batchSize).length = batchSize := by
      rw [hfilter, List.length_take]
      omega
    have hpagesub : ∀ r ∈ (store.filter (fun e => !e.revoked)).take batchSize,
        r.revoked = false := by
      intro r hr
      exact hA r (List.take_subset _ _ (hfilter ▸ hr))
    have hne : ((store.filter (fun e => !e.revoked)).take batchSize).isEmpty = false := by
      cases hp : (store.filter (fun e => !e.revoked)).take batchSize with
      | nil => rw [hp] at hpagelen; simp [batchSize] at hpagelen
      | cons a l => rfl
    simp only [sweepLoop, hne, hpagelen, Bool.false_eq_true, if_false, lt_self_iff_false]
    exact ih _ _
      (processPage_allActive now respOf _ store acc hA hpagesub)
      (by rw [processPage_length]; exact hlen)

/-! ### Helper lemmas about `removeEmpty` -/

/-- Fuel-indexed form of the pruning guarantee: every field list produced by
`pruneFields` is clean — no remaining value is `""` or `null`, and every remaining
nested object is non-empty and recursively clean. -/
theorem pruneFields_clean_fuel :
    ∀ n : Nat, ∀ fs : JFields, sizeOf fs ≤ n → cleanFields (pruneFields fs) = true := by
  intro n
  induction n with
  | zero =>
    intro fs h
    cases fs with
    | nil => rfl
    | cons k v rest => simp at h
  | succ n ih =>
    intro fs hle
    cases fs with
    | nil => rfl
    | cons k v rest =>
      have hle2 : 1 + sizeOf k + sizeOf v + sizeOf rest ≤ n + 1 := by simpa using hle
      have hrest := ih rest (by omega)
      cases v with
      | jstr s =>
        by_cases hs : s = ""
        · simp [pruneFields, isEmptyPrim, hs, hrest]
        · simp [pruneFields, isEmptyPrim, hs, cleanFields, cleanVal, hrest]
      | jnum m => simp [pruneFields, isEmptyPrim, cleanFields, cleanVal, hrest]
      | jbool b => simp [pruneFields, isEmptyPrim, cleanFields, cleanVal, hrest]
      | jnull => simp [pruneFields, isEmptyPrim, hrest]
      | jobj inner =>
        have hinner : sizeOf inner ≤ n := by
          have : sizeOf (JVal.jobj inner) = 1 + sizeOf inner := by simp
          omega
        have hin := ih inner hinner
        simp only [pruneFields, isEmptyPrim, Bool.false_eq_true, if_false]
        cases hpi : pruneFields inner with
        | nil => exact hrest
        | cons k2 v2 r2 =>
          rw [hpi] at hin
          simp only [cleanFields, Bool.and_eq_true] at hin
          simp [cleanFields, cleanVal, isNilF, hrest, hin.1, hin.2]

theorem pruneFields_clean (fs : JFields) : cleanFields (pruneFields fs) = true :=
  pruneFields_clean_fuel (sizeOf fs) fs le_rfl

/-! ### Concrete fixtures used by counterexamples and witnesses -/

/-- A minimal non-revoked credential row with id `i`, a decryptable refresh token,
no cached access token, and a `nextRefreshAt` in the past. -/
def mkActive (i : Nat) : EdmAuth :=
  { id := i, encryptedAccessToken := none, accessTokenExpiresAt := none,
    encryptedRefreshToken := .enc 0 "rt", refreshTokenHash := "h",
    lastRefreshedAt := none, nextRefreshAt := some 0, refreshFailureCount := 0,
    revoked := false }

/-- A 200 reply carrying an access token and `expires_in`, no rotation. -/
def respOkBasic : TokenResponse :=
  { ok := true, text := "", access_token := some "A", refresh_token := none,
    expires_in := some 3600 }

/-- A 200 reply whose JSON body has no `access_token` field. -/
def noTokenResp : TokenResponse :=
  { ok := true, text := "", access_token := none, refresh_token := none,
    expires_in := none }

/-- A row whose stored refresh-token ciphertext fails authenticated decryption,
with `nextRefreshAt` in the past. -/
def corruptRec : EdmAuth :=
  { id := 7, encryptedAccessToken := none, accessTokenExpiresAt := none,
    encryptedRefreshToken := .corrupt 0, refreshTokenHash := "h",
    lastRefreshedAt := none, nextRefreshAt := some 0, refreshFailureCount := 3,
    revoked := false }

/-- A row with some accumulated failures, used to observe the counter reset. -/
def failCountRec : EdmAuth :=
  { id := 4, encryptedAccessToken := none, accessTokenExpiresAt := none,
    encryptedRefreshToken := .enc 2 "rt", refreshTokenHash := "h",
    lastRefreshedAt := none, nextRefreshAt := some 0, refreshFailureCount := 5,
    revoked := false }

/-- A row with a stale stored `accessTokenExpiresAt` and no cached access token. -/
def staleExpiryRec : EdmAuth :=
  { id := 9, encryptedAccessToken := none, accessTokenExpiresAt := some 5,
    encryptedRefreshToken := .enc 1 "rt", refreshTokenHash := "h",
    lastRefreshedAt := none, nextRefreshAt := some 0, refreshFailureCount := 2,
    revoked := false }

/-- A 200 reply with an access token but no `expires_in` and no rotation. -/
def respNoExpiry : TokenResponse :=
  { ok := true, text := "", access_token := some "A", refresh_token := none,
    expires_in := none }

/-- A 200 reply that also rotates the refresh token. -/
def respRotate : TokenResponse :=
  { ok := true, text := "", access_token := some "A", refresh_token := some "NEWRT",
    expires_in := some 3600 }

/-- A 400-style reply from the token endpoint with a raw diagnostic body. -/
def respUpstream400 : TokenResponse :=
  { ok := false, text := "RAW_UPSTREAM_ERROR_BODY", access_token := none,
    refresh_token := none, expires_in := none }

/-- A valid order-visit request body. -/
def basicReq : OrderVisitReq :=
  { userId := some "u1", name := some "Jan", surname := some "Kowalski",
    email := none, pesel := none, date_of_birth := none, telephone := none,
    visitDate := none }

/-! ### Claim theorems -/

/-- C1: the claim states that with 250 non-revoked entries and `batchSize = 100` the
unconditional sweep terminates after exactly 3 page fetches with 250 outcomes, each
entry refreshed once. The code's `findMany({ where: { revoked: false }, take: 100 })`
has no cursor or skip and refreshing never clears `revoked`, so every iteration
refetches the same full first page: an authorized sweep over 250 non-revoked entries
never reaches either break, whatever bound we place on the number of iterations —
contradicting the route's own comments ("Process in batches until no more non-revoked
records", "otherwise loop to pick next page"). -/
theorem c1_sweep_never_terminates_on_250_entries :
    ∀ fuel : Nat,
      refreshAllPost ⟨"adminkey", false⟩ ⟨some "Bearer adminkey", none, none⟩ 0
        (fun _ => respOkBasic) fuel ((List.range 250).map mkActive) = .fuelExhausted := by
  intro fuel
  have hAA : AllActive ((List.range 250).map mkActive) := by
    intro x hx
    simp only [List.mem_map] at hx
    obtain ⟨i, _, rfl⟩ := hx
    rfl
  have hlen : batchSize ≤ ((List.range 250).map mkActive).length := by
    simp [batchSize]
  have hauth : checkAuth ⟨"adminkey", false⟩ ⟨some "Bearer adminkey", none, none⟩ = true := by
    decide
  unfold refreshAllPost
  rw [hauth, sweepLoop_none 0 (fun _ => respOkBasic) fuel _ [] hAA hlen]
  simp

/-- C2 counterexample: the claim states that every processed refresh attempt —
explicitly including one that fails because the stored refresh-token ciphertext
cannot be decrypted — pushes `nextRefreshAt` forward. On the request path
(`refreshAccessTokenIfNeeded`), `decryptToken(rec.encryptedRefreshToken)` throws
before any store update, so the row is left exactly as it was, with its
`nextRefreshAt` still in the past. -/
theorem c2_counterexample_decrypt_failure_leaves_row_unchanged :
    fastPathCond 1000000 corruptRec = false ∧
    (refreshAccessTokenIfNeeded 1000000 0 0 corruptRec respOkBasic).newRec = corruptRec ∧
    (refreshAccessTokenIfNeeded 1000000 0 0 corruptRec respOkBasic).storeWrites = 0 ∧
    corruptRec.nextRefreshAt = some 0 ∧ (0 : Int) < 1000000 := by
  refine ⟨rfl, rfl, rfl, rfl, by decide⟩

/-- C2 amended: the sweep's `refreshRecord` pushes `nextRefreshAt` forward on every
attempt (to now + 1h on the failure and catch paths, to now + 8h on the 2xx path),
and the request path pushes it forward on every attempt that reaches a store update;
but on the request path an attempt that fails by decryption error, or by a 2xx reply
lacking `access_token`, throws without any store update and leaves the row — and a
possibly-past `nextRefreshAt` — unchanged. -/
theorem c2_next_refresh_push (now : Int) (n1 n2 : Nat) (r rec : EdmAuth)
    (resp resp2 : TokenResponse) :
    (((refreshRecord now n1 n2 r resp).1).nextRefreshAt = some (now + oneHourMs) ∨
      ((refreshRecord now n1 n2 r resp).1).nextRefreshAt = some (now + eightHoursMs)) ∧
    ((refreshAccessTokenIfNeeded now n1 n2 rec resp2).newRec.nextRefreshAt
        = some (now + oneHourMs) ∨
      (refreshAccessTokenIfNeeded now n1 n2 rec resp2).newRec.nextRefreshAt
        = some (now + eightHoursMs) ∨
      (refreshAccessTokenIfNeeded now n1 n2 rec resp2).newRec = rec) ∧
    (∀ e, decryptToken rec.encryptedRefreshToken = .error e →
      (refreshAccessTokenIfNeeded now n1 n2 rec resp2).newRec = rec) ∧
    (resp2.ok = true → truthyStr resp2.access_token = false →
      (refreshAccessTokenIfNeeded now n1 n2 rec resp2).newRec = rec) := by
  refine ⟨?_, ?_, ?_, ?_⟩
  · unfold refreshRecord
    cases hd : decryptToken r.encryptedRefreshToken with
    | error e => left; simp [applyFailure]
    | ok rt =>
      by_cases hok : resp.ok
      · right; simp [hok]
      · left; simp [hok, applyFailure]
  · unfold refreshAccessTokenIfNeeded
    by_cases hf : fastPathCond now rec
    · right; right
      simp only [hf, if_true]
      cases rec.encryptedAccessToken <;> rfl
    · simp only [hf, Bool.false_eq_true, if_false]
      unfold doRefreshGrant
      cases hd : decryptToken rec.encryptedRefreshToken with
      | error e => right; right; rfl
      | ok rt =>
        by_cases hok : resp2.ok
        · by_cases hat : truthyStr resp2.access_token
          · right; left; simp [hok, hat]
          · right; right; simp [hok, hat]
        · left; simp [hok, applyFailure]
  · intro e hd
    unfold refreshAccessTokenIfNeeded
    by_cases hf : fastPathCond now rec
    · simp only [hf, if_true]
      cases rec.encryptedAccessToken <;> rfl
    · simp only [hf, Bool.false_eq_true, if_false]
      unfold doRefreshGrant
      rw [hd]
  · intro hok hat
    unfold refreshAccessTokenIfNeeded
    by_cases hf : fastPathCond now rec
    · simp only [hf, if_true]
      cases rec.encryptedAccessToken <;> rfl
    · simp only [hf, Bool.false_eq_true, if_false]
      unfold doRefreshGrant
      cases hd : decryptToken rec.encryptedRefreshToken with
      | error e => rfl
      | ok rt => simp [hok, hat]

/-- C2 amended witness: the sweep pushes `nextRefreshAt` forward for a concrete row
and reply, and the request path leaves the corrupt-ciphertext row unchanged. -/
theorem c2_next_refresh_push_witness :
    (((refreshRecord 1000000 0 0 (mkActive 1) respOkBasic).1).nextRefreshAt
        = some (1000000 + oneHourMs) ∨
      ((refreshRecord 1000000 0 0 (mkActive 1) respOkBasic).1).nextRefreshAt
        = some (1000000 + eightHoursMs)) ∧
    (refreshAccessTokenIfNeeded 1000000 0 0 corruptRec respOkBasic).newRec = corruptRec := by
  have h := c2_next_refresh_push 1000000 0 0 (mkActive 1) corruptRec respOkBasic respOkBasic
  exact ⟨h.1, h.2.2.1 "CryptoError: malformed or tampered ciphertext 0" rfl⟩

/-- C3 counterexample: the claim states that a 2xx reply lacking `access_token` is
treated as a retryable failure (`applyFailure`, no success outcome). In the sweep's
`refreshRecord`, such a reply takes the success path: the failure counter is reset
to 0 (not incremented), `nextRefreshAt` is set to now + 8h (not now + 1h), and an
`ok: true` outcome is reported. -/
theorem c3_counterexample_missing_token_treated_as_success :
    (refreshRecord 1000 0 0 failCountRec noTokenResp).2 = .okOut 4 (1000 + eightHoursMs) ∧
    ((refreshRecord 1000 0 0 failCountRec noTokenResp).1).refreshFailureCount = 0 ∧
    ((refreshRecord 1000 0 0 failCountRec noTokenResp).1).nextRefreshAt
      = some (1000 + eightHoursMs) ∧
    failCountRec.refreshFailureCount = 5 := by
  refine ⟨rfl, rfl, rfl, rfl⟩

/-- C3 amended: a 2xx reply lacking `access_token` is handled inconsistently. In the
sweep's `refreshRecord` it is treated as a success: the stored access-token column is
left unchanged (Prisma skips the `undefined` field), but the failure counter is reset,
`lastRefreshedAt` is set, `nextRefreshAt` becomes now + 8h and an `ok: true` outcome
is reported. On the request path it throws `"No access_token in refresh response"` to
the caller with no store update at all — neither path performs `applyFailure`. -/
theorem c3_missing_access_token_behaviour (now : Int) (n1 n2 : Nat) (r rec : EdmAuth)
    (resp : TokenResponse) (hok : resp.ok = true)
    (hmiss : truthyStr resp.access_token = false)
    (rt : String) (hdec : decryptToken r.encryptedRefreshToken = .ok rt)
    (rt2 : String) (hdec2 : decryptToken rec.encryptedRefreshToken = .ok rt2)
    (hfast : fastPathCond now rec = false) :
    (refreshRecord now n1 n2 r resp).2 = .okOut r.id (now + eightHoursMs) ∧
    ((refreshRecord now n1 n2 r resp).1).encryptedAccessToken = r.encryptedAccessToken ∧
    ((refreshRecord now n1 n2 r resp).1).refreshFailureCount = 0 ∧
    ((refreshRecord now n1 n2 r resp).1).nextRefreshAt = some (now + eightHoursMs) ∧
    ((refreshRecord now n1 n2 r resp).1).lastRefreshedAt = some now ∧
    (refreshAccessTokenIfNeeded now n1 n2 rec resp).newRec = rec ∧
    (refreshAccessTokenIfNeeded now n1 n2 rec resp).result
      = .error "No access_token in refresh response" ∧
    (refreshAccessTokenIfNeeded now n1 n2 rec resp).storeWrites = 0 := by
  have hsweep : ∀ p : EdmAuth × SweepOutcome, p = refreshRecord now n1 n2 r resp →
      p.2 = .okOut r.id (now + eightHoursMs) ∧ p.1.encryptedAccessToken = r.encryptedAccessToken ∧
      p.1.refreshFailureCount = 0 ∧ p.1.nextRefreshAt = some (now + eightHoursMs) ∧
      p.1.lastRefreshedAt = some now := by
    intro p hp
    unfold refreshRecord at hp
    rw [hdec] at hp
    simp only [hok, Bool.not_true, Bool.false_eq_true, if_false, hmiss] at hp
    subst hp
    simp
  have hreq : refreshAccessTokenIfNeeded now n1 n2 rec resp =
      { newRec := rec, result := .error "No access_token in refresh response",
        networkCalls := 1, storeWrites := 0 } := by
    unfold refreshAccessTokenIfNeeded
    simp only [hfast, Bool.false_eq_true, if_false]
    unfold doRefreshGrant
    rw [hdec2]
    simp [hok, hmiss]
  obtain ⟨h1, h2, h3, h4, h5⟩ := hsweep _ rfl
  exact ⟨h1, h2, h3, h4, h5, by rw [hreq], by rw [hreq], by rw [hreq]⟩

/-- C3 amended witness: concrete instantiation on a row with 5 accumulated failures
and a token-less 2xx reply. -/
theorem c3_missing_access_token_behaviour_witness :
    ((refreshRecord 1000 0 0 failCountRec noTokenResp).1).refreshFailureCount = 0 ∧
    (refreshAccessTokenIfNeeded 1000 0 0 failCountRec noTokenResp).newRec = failCountRec := by
  have h := c3_missing_access_token_behaviour 1000 0 0 failCountRec failCountRec noTokenResp
    rfl rfl "rt" rfl "rt" rfl rfl
  exact ⟨h.2.2.1, h.2.2.2.2.2.1⟩

/-- C4: a non-success HTTP reply from the token endpoint makes both refresh
implementations increment `refreshFailureCount` by exactly one and set
`nextRefreshAt` to now + 1h, leaving every token-material column
(`encryptedAccessToken`, `accessTokenExpiresAt`, `encryptedRefreshToken`,
`refreshTokenHash`) and `lastRefreshedAt` unchanged. -/
theorem c4_failure_backoff (now : Int) (n1 n2 : Nat) (r rec : EdmAuth)
    (resp : TokenResponse) (hfail : resp.ok = false)
    (rt : String) (hdec : decryptToken r.encryptedRefreshToken = .ok rt)
    (rt2 : String) (hdec2 : decryptToken rec.encryptedRefreshToken = .ok rt2)
    (hfast : fastPathCond now rec = false) :
    (refreshRecord now n1 n2 r resp).1 = applyFailure now r ∧
    (refreshAccessTokenIfNeeded now n1 n2 rec resp).newRec = applyFailure now rec ∧
    (applyFailure now r).refreshFailureCount = r.refreshFailureCount + 1 ∧
    (applyFailure now r).nextRefreshAt = some (now + oneHourMs) ∧
    (applyFailure now r).encryptedAccessToken = r.encryptedAccessToken ∧
    (applyFailure now r).accessTokenExpiresAt = r.accessTokenExpiresAt ∧
    (applyFailure now r).encryptedRefreshToken = r.encryptedRefreshToken ∧
    (applyFailure now r).refreshTokenHash = r.refreshTokenHash ∧
    (applyFailure now r).lastRefreshedAt = r.lastRefreshedAt := by
  refine ⟨?_, ?_, rfl, rfl, rfl, rfl, rfl, rfl, rfl⟩
  · unfold refreshRecord
    rw [hdec]
    simp [hfail]
  · unfold refreshAccessTokenIfNeeded
    simp only [hfast, Bool.false_eq_true, if_false]
    unfold doRefreshGrant
    rw [hdec2]
    simp [hfail]

/-- C4 witness: concrete instantiation with an upstream 400-style reply. -/
theorem c4_failure_backoff_witness :
    (refreshRecord 1000 0 0 failCountRec respUpstream400).1 = applyFailure 1000 failCountRec ∧
    (applyFailure 1000 failCountRec).refreshFailureCount = 6 ∧
    (applyFailure 1000 failCountRec).nextRefreshAt = some (1000 + oneHourMs) := by
  have h := c4_failure_backoff 1000 0 0 failCountRec failCountRec respUpstream400
    rfl "rt" rfl "rt" rfl rfl
  exact ⟨h.1, by rw [h.2.2.1]; rfl, h.2.2.2.1⟩

/-- C5 counterexample: the claim states that after a 200 with `access_token` but
without `expires_in`, `accessTokenExpiresAt` is absent. In the code the update
passes `expiresAt ?? undefined`, and Prisma skips an `undefined` field, so the
previously stored (stale) value survives: here the attempt succeeds with token
`"A"` yet `accessTokenExpiresAt` is still `some 5`, not absent. -/
theorem c5_counterexample_stale_expiry_survives :
    (refreshAccessTokenIfNeeded 1000 0 0 staleExpiryRec respNoExpiry).result = .ok "A" ∧
    (refreshAccessTokenIfNeeded 1000 0 0 staleExpiryRec respNoExpiry).newRec.accessTokenExpiresAt
      = some 5 ∧
    staleExpiryRec.accessTokenExpiresAt = some 5 ∧
    respNoExpiry.expires_in = none := by
  refine ⟨rfl, rfl, rfl, rfl⟩

/-- C5 amended: on a 200 with a (truthy) `access_token`, the request path stores the
access token encrypted (and it decrypts back to the plaintext), resets
`refreshFailureCount` to 0, sets `lastRefreshedAt = now` and
`nextRefreshAt = now + 8h`, sets `accessTokenExpiresAt = now + expires_in` seconds
when `expires_in` is present and non-zero and otherwise leaves the stored
`accessTokenExpiresAt` unchanged (not absent); a (truthy) `refresh_token` in the
reply replaces both `encryptedRefreshToken` and `refreshTokenHash`, and otherwise
both are left exactly unchanged; the plaintext access token is returned. -/
theorem c5_success_update (now : Int) (n1 n2 : Nat) (rec : EdmAuth) (resp : TokenResponse)
    (hfast : fastPathCond now rec = false)
    (rt : String) (hdec : decryptToken rec.encryptedRefreshToken = .ok rt)
    (hok : resp.ok = true) (a : String) (ha : resp.access_token = some a) (hane : a ≠ "") :
    (refreshAccessTokenIfNeeded now n1 n2 rec resp).result = .ok a ∧
    (refreshAccessTokenIfNeeded now n1 n2 rec resp).newRec.encryptedAccessToken
      = some (encryptToken n1 a) ∧
    decryptToken (encryptToken n1 a) = .ok a ∧
    (refreshAccessTokenIfNeeded now n1 n2 rec resp).newRec.refreshFailureCount = 0 ∧
    (refreshAccessTokenIfNeeded now n1 n2 rec resp).newRec.lastRefreshedAt = some now ∧
    (refreshAccessTokenIfNeeded now n1 n2 rec resp).newRec.nextRefreshAt
      = some (now + eightHoursMs) ∧
    (truthyInt resp.expires_in = true →
      (refreshAccessTokenIfNeeded now n1 n2 rec resp).newRec.accessTokenExpiresAt
        = some (now + resp.expires_in.getD 0 * 1000)) ∧
    (truthyInt resp.expires_in = false →
      (refreshAccessTokenIfNeeded now n1 n2 rec resp).newRec.accessTokenExpiresAt
        = rec.accessTokenExpiresAt) ∧
    (∀ rtk, resp.refresh_token = some rtk → rtk ≠ "" →
      (refreshAccessTokenIfNeeded now n1 n2 rec resp).newRec.encryptedRefreshToken
        = encryptToken n2 rtk ∧
      (refreshAccessTokenIfNeeded now n1 n2 rec resp).newRec.refreshTokenHash
        = hashToken rtk) ∧
    (truthyStr resp.refresh_token = false →
      (refreshAccessTokenIfNeeded now n1 n2 rec resp).newRec.encryptedRefreshToken
        = rec.encryptedRefreshToken ∧
      (refreshAccessTokenIfNeeded now n1 n2 rec resp).newRec.refreshTokenHash
        = rec.refreshTokenHash) := by
  have htr : truthyStr resp.access_token = true := by
    simp [ha, truthyStr, hane]
  have hcall : refreshAccessTokenIfNeeded now n1 n2 rec resp
      = doRefreshGrant now n1 n2 rec resp := by
    unfold refreshAccessTokenIfNeeded
    simp [hfast]
  rw [hcall]
  unfold doRefreshGrant
  rw [hdec]
  simp only [hok, Bool.not_true, Bool.false_eq_true, if_false, htr]
  refine ⟨by simp [ha], by simp [ha], rfl, by simp, by simp, by simp, ?_, ?_, ?_, ?_⟩
  · intro hei; simp [hei]
  · intro hei; simp [hei]
  · intro rtk hrtk hne
    have htt : truthyStr (some rtk) = true := by simp [truthyStr, hne]
    simp [hrtk, htt]
  · intro hrf; simp [hrf]

/-- C5 amended witness: concrete instantiations, one reply without `expires_in`
(stale expiry survives) and one rotating reply. -/
theorem c5_success_update_witness :
    (refreshAccessTokenIfNeeded 1000 0 0 staleExpiryRec respNoExpiry).newRec.accessTokenExpiresAt
      = staleExpiryRec.accessTokenExpiresAt ∧
    (refreshAccessTokenIfNeeded 1000 0 0 staleExpiryRec respRotate).newRec.encryptedRefreshToken
      = encryptToken 0 "NEWRT" ∧
    (refreshAccessTokenIfNeeded 1000 0 0 staleExpiryRec respRotate).newRec.refreshTokenHash
      = hashToken "NEWRT" ∧
    (refreshAccessTokenIfNeeded 1000 0 0 staleExpiryRec respNoExpiry).newRec.refreshTokenHash
      = staleExpiryRec.refreshTokenHash := by
  have h1 := c5_success_update 1000 0 0 staleExpiryRec respNoExpiry rfl "rt" rfl rfl "A" rfl
    (by decide)
  have h2 := c5_success_update 1000 0 0 staleExpiryRec respRotate rfl "rt" rfl rfl "A" rfl
    (by decide)
  refine ⟨h1.2.2.2.2.2.2.2.1 rfl, ?_, ?_, (h1.2.2.2.2.2.2.2.2.2 rfl).2⟩
  · exact (h2.2.2.2.2.2.2.2.2.1 "NEWRT" rfl (by decide)).1
  · exact (h2.2.2.2.2.2.2.2.2.1 "NEWRT" rfl (by decide)).2

/-- C6 counterexample: the claim states the network refresh call is made if and only
if the cached access token is absent or (nearly) expired. On a row with no cached
access token but a corrupt refresh-token ciphertext, `decryptToken` throws before the
`fetch`, so no network call is made although the claimed condition holds. -/
theorem c6_counterexample_decrypt_failure_blocks_call :
    corruptRec.encryptedAccessToken = none ∧
    (refreshAccessTokenIfNeeded 1000000 0 0 corruptRec respOkBasic).networkCalls = 0 := by
  refine ⟨rfl, rfl⟩

/-- C6 amended: on the fast path (cached token present and expiry more than 60
seconds ahead) the call performs zero network calls and zero store writes and
returns the decryption of the stored access-token ciphertext; off the fast path the
network call is made exactly when the stored refresh-token ciphertext decrypts
successfully — a decryption failure aborts with zero network calls and zero store
writes. The fast-path guard holds precisely when `encryptedAccessToken` is present
and `accessTokenExpiresAt` is present and more than 60 seconds in the future. -/
theorem c6_fast_path_iff (now : Int) (n1 n2 : Nat) (rec : EdmAuth) (resp : TokenResponse) :
    (fastPathCond now rec = true →
      (refreshAccessTokenIfNeeded now n1 n2 rec resp).networkCalls = 0 ∧
      (refreshAccessTokenIfNeeded now n1 n2 rec resp).storeWrites = 0 ∧
      (refreshAccessTokenIfNeeded now n1 n2 rec resp).newRec = rec ∧
      (∀ ct, rec.encryptedAccessToken = some ct →
        (refreshAccessTokenIfNeeded now n1 n2 rec resp).result = decryptToken ct)) ∧
    (fastPathCond now rec = false → ∀ rt, decryptToken rec.encryptedRefreshToken = .ok rt →
      (refreshAccessTokenIfNeeded now n1 n2 rec resp).networkCalls = 1) ∧
    (fastPathCond now rec = false → ∀ e, decryptToken rec.encryptedRefreshToken = .error e →
      (refreshAccessTokenIfNeeded now n1 n2 rec resp).networkCalls = 0 ∧
      (refreshAccessTokenIfNeeded now n1 n2 rec resp).newRec = rec ∧
      (refreshAccessTokenIfNeeded now n1 n2 rec resp).storeWrites = 0) ∧
    (fastPathCond now rec = true ↔
      rec.encryptedAccessToken.isSome = true ∧
        ∃ t, rec.accessTokenExpiresAt = some t ∧ t > now + 60 * 1000) := by
  refine ⟨?_, ?_, ?_, ?_⟩
  · intro hf
    unfold refreshAccessTokenIfNeeded
    simp only [hf, if_true]
    cases hct : rec.encryptedAccessToken with
    | none =>
      refine ⟨rfl, rfl, rfl, ?_⟩
      intro ct hc
      simp at hc
    | some ct =>
      refine ⟨rfl, rfl, rfl, ?_⟩
      intro ct2 hc2
      injection hc2 with h
      subst h
      rfl
  · intro hf rt hdec
    unfold refreshAccessTokenIfNeeded
    simp only [hf, Bool.false_eq_true, if_false]
    unfold doRefreshGrant
    rw [hdec]
    by_cases hok : resp.ok
    · by_cases hat : truthyStr resp.access_token
      · simp [hok, hat]
      · simp [hok, hat]
    · simp [hok]
  · intro hf e hdec
    unfold refreshAccessTokenIfNeeded
    simp only [hf, Bool.false_eq_true, if_false]
    unfold doRefreshGrant
    rw [hdec]
    exact ⟨rfl, rfl, rfl⟩
  · unfold fastPathCond
    cases hat : rec.accessTokenExpiresAt with
    | none => simp
    | some t => simp

/-- C6 amended witness: a row inside the safety margin takes the refresh path, a row
comfortably before expiry takes the pure fast path, and the corrupt row makes no
call. -/
theorem c6_fast_path_iff_witness :
    (refreshAccessTokenIfNeeded 1000000 0 0
        { staleExpiryRec with encryptedAccessToken := some (.enc 5 "CACHED"),
                              accessTokenExpiresAt := some 2000000 }
        respOkBasic).networkCalls = 0 ∧
    (refreshAccessTokenIfNeeded 1000000 0 0
        { staleExpiryRec with encryptedAccessToken := some (.enc 5 "CACHED"),
                              accessTokenExpiresAt := some 2000000 }
        respOkBasic).result = .ok "CACHED" ∧
    (refreshAccessTokenIfNeeded 1000000 0 0
        { staleExpiryRec with encryptedAccessToken := some (.enc 5 "CACHED"),
                              accessTokenExpiresAt := some 1030000 }
        respOkBasic).networkCalls = 1 ∧
    (refreshAccessTokenIfNeeded 1000000 0 0 corruptRec respOkBasic).networkCalls = 0 := by
  have hfresh := c6_fast_path_iff 1000000 0 0
    { staleExpiryRec with encryptedAccessToken := some (.enc 5 "CACHED"),
                          accessTokenExpiresAt := some 2000000 } respOkBasic
  have hmargin := c6_fast_path_iff 1000000 0 0
    { staleExpiryRec with encryptedAccessToken := some (.enc 5 "CACHED"),
                          accessTokenExpiresAt := some 1030000 } respOkBasic
  have hcorrupt := c6_fast_path_iff 1000000 0 0 corruptRec respOkBasic
  refine ⟨(hfresh.1 rfl).1, ?_, ?_, (hcorrupt.2.2.1 rfl _ rfl).1⟩
  · have hres := (hfresh.1 rfl).2.2.2 (.enc 5 "CACHED") rfl
    rw [hres]
    rfl
  · exact hmargin.2.1 rfl "rt" rfl

/-- The collaborator environment used for the C7 counterexample: a valid request
from an end user whose token refresh is answered with an upstream 400 carrying a raw
diagnostic body. -/
def upstreamFailEnv : OrderVisitEnv :=
  { user := some none, authRec := some (mkActive 1), tokenResp := respUpstream400,
    createPatientResp := ⟨true, 201, jo [("id", .jnum 10)]⟩,
    edmCfg := some ⟨some "d", some "o"⟩, visitResp := ⟨true, 201, .jnull⟩ }

/-- C7 counterexample: the claim states the response body to an untrusted caller
never contains the raw error body returned by the upstream token endpoint. The
order-visit endpoint (served to end users through the CreateVisit form) returns a
502 whose `details` field embeds the upstream token endpoint's raw body verbatim. -/
theorem c7_counterexample_upstream_body_in_response :
    orderVisitPost 1000 0 0 basicReq upstreamFailEnv =
      .json 502 (jo [("error", .jstr "failed_to_get_access_token"),
                     ("details", .jstr ("EDM refresh failed: " ++ "RAW_UPSTREAM_ERROR_BODY"))]) ∧
    upstreamFailEnv.tokenResp.text = "RAW_UPSTREAM_ERROR_BODY" := by
  refine ⟨rfl, rfl⟩

/-- C7 amended: the 502 `failed_to_get_access_token` response produced when the
token endpoint rejects the refresh is fully determined by the upstream reply's raw
body text — it carries no token material from the stored entry (noninterference
with respect to every credential column) — but it does expose that raw upstream
error body to the caller inside the `details` field, prefixed with
"EDM refresh failed: ". -/
theorem c7_token_failure_response (now : Int) (n1 n2 : Nat) (req : OrderVisitReq)
    (env : OrderVisitEnv) (ext : Option String) (rec : EdmAuth)
    (hu : truthyStr req.userId = true) (hn : truthyStr req.name = true)
    (hs : truthyStr req.surname = true)
    (huser : env.user = some ext) (hrec : env.authRec = some rec)
    (hfast : fastPathCond now rec = false)
    (rt : String) (hdec : decryptToken rec.encryptedRefreshToken = .ok rt)
    (hfail : env.tokenResp.ok = false) :
    orderVisitPost now n1 n2 req env =
      .json 502 (jo [("error", .jstr "failed_to_get_access_token"),
                     ("details", .jstr ("EDM refresh failed: " ++ env.tokenResp.text))]) := by
  have hres : (refreshAccessTokenIfNeeded now n1 n2 rec env.tokenResp).result
      = .error ("EDM refresh failed: " ++ env.tokenResp.text) := by
    unfold refreshAccessTokenIfNeeded
    simp only [hfast, Bool.false_eq_true, if_false]
    unfold doRefreshGrant
    rw [hdec]
    simp [hfail]
  unfold orderVisitPost
  rw [huser, hrec]
  simp [hu, hn, hs, hres]

/-- C7 amended witness: two entries that differ in every credential column produce
the identical 502 body, which embeds the upstream text. -/
theorem c7_token_failure_response_witness :
    orderVisitPost 1000 0 0 basicReq
        { upstreamFailEnv with authRec := some failCountRec,
                               tokenResp := { respUpstream400 with text := "err400" } } =
      .json 502 (jo [("error", .jstr "failed_to_get_access_token"),
                     ("details", .jstr ("EDM refresh failed: " ++ "err400"))]) ∧
    orderVisitPost 1000 0 0 basicReq
        { upstreamFailEnv with authRec := some (mkActive 2),
                               tokenResp := { respUpstream400 with text := "err400" } } =
      .json 502 (jo [("error", .jstr "failed_to_get_access_token"),
                     ("details", .jstr ("EDM refresh failed: " ++ "err400"))]) := by
  constructor
  · exact c7_token_failure_response 1000 0 0 basicReq _ none failCountRec rfl rfl rfl rfl rfl
      rfl "rt" rfl rfl
  · exact c7_token_failure_response 1000 0 0 basicReq _ none (mkActive 2) rfl rfl rfl rfl rfl
      rfl "rt" rfl rfl

/-- C8 counterexample: the claim states every request not presenting the configured
admin secret receives a 401. With `VERCEL = "1"` in the environment, a request
presenting no Authorization header and no x-admin-key header but carrying an
`x-vercel-cron` header is accepted and the sweep runs (here over an empty store,
completing with 0 outcomes instead of returning 401). -/
theorem c8_counterexample_vercel_cron_bypass :
    refreshAllPost ⟨"s3cret", true⟩ ⟨none, none, some "1"⟩ 0 (fun _ => respOkBasic) 1 [] =
      .completed 0 [] ∧
    (⟨none, none, some "1"⟩ : ReqHeaders).authorization = none ∧
    (⟨none, none, some "1"⟩ : ReqHeaders).xAdminKey = none := by
  refine ⟨rfl, rfl, rfl⟩

/-- C8 amended: a request is rejected with 401 (and no refresh work) exactly when
`checkAuth` fails, and `checkAuth` accepts exactly the requests presenting the
configured secret as `Authorization: Bearer <key>` or as `x-admin-key: <key>` — plus,
when the process runs with `VERCEL = "1"`, any request carrying an `x-vercel-cron`
header, which is accepted without the secret. -/
theorem c8_auth_gate (env : AuthEnv) (h : ReqHeaders) (now : Int)
    (respOf : Nat → TokenResponse) (fuel : Nat) (store : List EdmAuth) :
    (checkAuth env h = false → refreshAllPost env h now respOf fuel store = .unauthorized) ∧
    (checkAuth env h = true → refreshAllPost env h now respOf fuel store ≠ .unauthorized) ∧
    (checkAuth env h = true ↔
      (h.authorization.getD "" = "Bearer " ++ env.adminRefreshKey ∨
       h.xAdminKey = some env.adminRefreshKey ∨
       (env.vercel = true ∧ h.xVercelCron.isSome = true))) := by
  refine ⟨?_, ?_, ?_⟩
  · intro hc
    unfold refreshAllPost
    simp [hc]
  · intro hc
    unfold refreshAllPost
    simp only [hc, Bool.not_true, Bool.false_eq_true, if_false]
    cases sweepLoop now respOf fuel store [] with
    | none => simp
    | some p => cases p with | mk s results => simp
  · unfold checkAuth
    by_cases h1 : h.authorization.getD "" = "Bearer " ++ env.adminRefreshKey
    · simp [h1]
    · by_cases h2 : h.xAdminKey = some env.adminRefreshKey
      · simp [h1, h2]
      · by_cases h3 : env.vercel = true ∧ h.xVercelCron.isSome = true
        · simp [h1, h2, h3.1, h3.2]
        · have hv : (env.vercel && h.xVercelCron.isSome) = false := by
            cases hvv : env.vercel with
            | false => rfl
            | true =>
              cases hcc : h.xVercelCron.isSome with
              | false => rfl
              | true => exact absurd ⟨hvv, hcc⟩ h3
          simp [h1, h2, hv, h3]

/-- C8 amended witness: a request presenting the bearer secret is accepted, one
presenting only the x-admin-key secret is accepted, and a bare request without the
secret (no Vercel cron marker) receives the 401. -/
theorem c8_auth_gate_witness :
    refreshAllPost ⟨"k", false⟩ ⟨none, some "wrong", none⟩ 0 (fun _ => respOkBasic) 1 []
      = .unauthorized ∧
    refreshAllPost ⟨"k", false⟩ ⟨some "Bearer k", none, none⟩ 0 (fun _ => respOkBasic) 1 []
      ≠ .unauthorized ∧
    refreshAllPost ⟨"k", false⟩ ⟨none, some "k", none⟩ 0 (fun _ => respOkBasic) 1 []
      ≠ .unauthorized := by
  have hrej := c8_auth_gate ⟨"k", false⟩ ⟨none, some "wrong", none⟩ 0 (fun _ => respOkBasic) 1 []
  have hbearer := c8_auth_gate ⟨"k", false⟩ ⟨some "Bearer k", none, none⟩ 0
    (fun _ => respOkBasic) 1 []
  have hheader := c8_auth_gate ⟨"k", false⟩ ⟨none, some "k", none⟩ 0 (fun _ => respOkBasic) 1 []
  refine ⟨hrej.1 (by decide), hbearer.2.1 (by decide), hheader.2.1 (by decide)⟩

/-- C9: for every input, the patient payload returned by `buildPatientPayload` is
the `removeEmpty`-pruned object, and the pruned field list is clean: no key at any
nesting depth is bound to the empty string or `null` (the builder never stores
`undefined`; absent keys model it), and every nested object that remains is
non-empty — only populated fields are serialized. -/
theorem c9_payload_clean (i : PatientInput) :
    buildPatientPayload i = .jobj (pruneFields (buildPatientPayloadRaw i)) ∧
    cleanFields (pruneFields (buildPatientPayloadRaw i)) = true :=
  ⟨rfl, pruneFields_clean _⟩

/-- C10: when the order-visit request is valid, an access token is obtained, and the
upstream patient-creation or visit-creation call replies with a non-success status,
the endpoint responds with HTTP 200 and the body
`{ ok: false, step, status, body }` carrying the upstream status and parsed body —
not with an HTTP error status. The three reachable cases are: patient creation fails;
the user already has an external patient id and visit creation fails; patient
creation succeeds and visit creation fails. -/
theorem c10_upstream_validation_passthrough (now : Int) (n1 n2 : Nat)
    (req : OrderVisitReq) (env : OrderVisitEnv) (ext : Option String) (rec : EdmAuth)
    (tok : String)
    (hu : truthyStr req.userId = true) (hn : truthyStr req.name = true)
    (hs : truthyStr req.surname = true)
    (huser : env.user = some ext) (hrec : env.authRec = some rec)
    (htok : (refreshAccessTokenIfNeeded now n1 n2 rec env.tokenResp).result = .ok tok) :
    (truthyStr ext = false → env.createPatientResp.ok = false →
      orderVisitPost now n1 n2 req env =
        .json 200 (jo [("ok", .jbool false), ("step", .jstr "create_patient"),
                       ("status", .jnum env.createPatientResp.status),
                       ("body", env.createPatientResp.parsed)])) ∧
    (∀ cfg, truthyStr ext = true → env.edmCfg = some cfg →
      truthyStr cfg.doctorExternalId = true → truthyStr cfg.departmentExternalId = true →
      env.visitResp.ok = false →
      orderVisitPost now n1 n2 req env =
        .json 200 (jo [("ok", .jbool false), ("step", .jstr "create_visit"),
                       ("status", .jnum env.visitResp.status),
                       ("body", env.visitResp.parsed)])) ∧
    (∀ cfg, truthyStr ext = false → env.createPatientResp.ok = true →
      env.edmCfg = some cfg →
      truthyStr cfg.doctorExternalId = true → truthyStr cfg.departmentExternalId = true →
      env.visitResp.ok = false →
      orderVisitPost now n1 n2 req env =
        .json 200 (jo [("ok", .jbool false), ("step", .jstr "create_visit"),
                       ("status", .jnum env.visitResp.status),
                       ("body", env.visitResp.parsed)])) := by
  refine ⟨?_, ?_, ?_⟩
  · intro hext hcreate
    unfold orderVisitPost
    rw [huser, hrec]
    simp [hu, hn, hs, htok, hext, hcreate]
  · intro cfg hext hcfg hdoc hoff hvisit
    unfold orderVisitPost
    rw [huser, hrec]
    simp [hu, hn, hs, htok, hext, hcfg, hdoc, hoff, hvisit]
  · intro cfg hext hcreate hcfg hdoc hoff hvisit
    unfold orderVisitPost
    rw [huser, hrec]
    simp [hu, hn, hs, htok, hext, hcreate, hcfg, hdoc, hoff, hvisit]

/-- Environment whose upstream patient creation fails with a 400 validation error. -/
def patientFailEnv : OrderVisitEnv :=
  { user := some none, authRec := some (mkActive 1), tokenResp := respOkBasic,
    createPatientResp := ⟨false, 400, jo [("pesel", .jstr "invalid")]⟩,
    edmCfg := some ⟨some "d", some "o"⟩, visitResp := ⟨true, 201, .jnull⟩ }

/-- Environment whose upstream visit creation fails with a 422 validation error. -/
def visitFailEnv : OrderVisitEnv :=
  { user := some (some "p77"), authRec := some (mkActive 1), tokenResp := respOkBasic,
    createPatientResp := ⟨true, 201, jo [("id", .jnum 10)]⟩,
    edmCfg := some ⟨some "d", some "o"⟩,
    visitResp := ⟨false, 422, jo [("date", .jstr "taken")]⟩ }

/-- C10 witness: a concrete failing patient creation and a concrete failing visit
creation both surface as HTTP 200 with `ok: false` and the upstream status/body. -/
theorem c10_upstream_validation_passthrough_witness :
    orderVisitPost 1000 0 0 basicReq patientFailEnv =
      .json 200 (jo [("ok", .jbool false), ("step", .jstr "create_patient"),
                     ("status", .jnum 400), ("body", jo [("pesel", .jstr "invalid")])]) ∧
    orderVisitPost 1000 0 0 basicReq visitFailEnv =
      .json 200 (jo [("ok", .jbool false), ("step", .jstr "create_visit"),
                     ("status", .jnum 422), ("body", jo [("date", .jstr "taken")])]) := by
  constructor
  · exact (c10_upstream_validation_passthrough 1000 0 0 basicReq patientFailEnv none
      (mkActive 1) "A" rfl rfl rfl rfl rfl rfl).1 rfl rfl
  · exact (c10_upstream_validation_passthrough 1000 0 0 basicReq visitFailEnv (some "p77")
      (mkActive 1) "A" rfl rfl rfl rfl rfl rfl).2.1 ⟨some "d", some "o"⟩ rfl rfl rfl rfl rfl

end FitDoctor
